import Mathlib

/-
Verification of the deployment execution core of fabric-bolt
(fabric_bolt/projects/views.py), as a shallow embedding in Lean 4.

Conventions of the embedding:
* Python values appearing as configuration values are modelled by `PyValue`
  (the three data types the form layer produces: bool, float, str).  A float
  is carried by its decimal rendering, i.e. the string that Python's
  `str(value)` yields for it.
* Python dicts are modelled as association lists in insertion order, with
  `alist_insert` overwriting in place as `dict.__setitem__` does.  Python 2
  dict/set iteration order is implementation-defined; the model fixes
  insertion order.
* Fallible Python code is modelled with `Except PyError`.  External effects
  (the fabric subprocess invocations, git clone, the filesystem) are
  parameters of the functions that use them.
-/

set_option autoImplicit false

/-- A single-quote character, used to build string literals of the source. -/
def apos : String := String.singleton (Char.ofNat 39)

/-- Configuration values as the Django form layer produces them:
booleans, floats (carried by their `str` rendering), and strings. -/
inductive PyValue where
  | bool (b : Bool)
  | num (rendering : String)
  | str (s : String)
deriving DecidableEq, Repr

/-- Python exceptions relevant to the embedded code. -/
inductive PyError where
  | attributeError (msg : String)
  | exception (msg : String)
deriving DecidableEq, Repr

/-- Python 2 `e.message`: the message string the exception carries. -/
def PyError.message : PyError → String
  | .attributeError m => m
  | .exception m => m

/-- The message of the `AttributeError` raised by `command.append(...)`
when `command` is a `str`. -/
def str_no_append : String :=
  apos ++ "str" ++ apos ++ " object has no attribute " ++ apos ++ "append" ++ apos

/-- First-match lookup in an association list (Python dict read, given that
the list is maintained with in-place overwrites so keys never repeat). -/
def alist_lookup {α : Type} : List (String × α) → String → Option α
  | [], _ => none
  | (k2, v) :: rest, k => if k2 = k then some v else alist_lookup rest k

/-- Python `dict.__setitem__`: overwrite the value in place when the key is
present, append the binding otherwise. -/
def alist_insert {α : Type} : List (String × α) → String → α → List (String × α)
  | [], k, v => [(k, v)]
  | (k2, v2) :: rest, k, v =>
      if k2 = k then (k2, v) :: rest else (k2, v2) :: alist_insert rest k v

/-- Python `d1.update(d2)`: insert every binding of `d2` into `d1`, in order. -/
def dict_update {α : Type} (d1 d2 : List (String × α)) : List (String × α) :=
  d2.foldl (fun acc kv => alist_insert acc kv.1 kv.2) d1

/-- Last-match lookup: the value a Python dict built from these bindings
would associate to the key (later bindings overwrite earlier ones). -/
def alist_lookup_last {α : Type} : List (String × α) → String → Option α
  | [], _ => none
  | (k2, v) :: rest, k =>
      match alist_lookup_last rest k with
      | some w => some w
      | none => if k2 = k then some v else none

/-- Modelled from the spec: `Stage.get_configurations` lives in
`fabric_bolt/projects/models.py`, which is absent from the sources; the spec
states that stage-level configurations override project-level configurations
of the same key.  Modelled as the project-level dict updated with the
stage-level dict. -/
def stage_get_configurations (project_config stage_config : List (String × PyValue)) :
    List (String × PyValue) :=
  dict_update project_config stage_config

/-- The effective configuration used by `DeploymentOutputStream.build_command`
(views.py lines 374-376): the stage's configurations updated with the
prompted values stored in the session. -/
def merged_config (project_config stage_config session_values : List (String × PyValue)) :
    List (String × PyValue) :=
  dict_update (stage_get_configurations project_config stage_config) session_values

/-- The special option names of views.py line 32 (`fabric_special_options`). -/
def fabric_special_options : List String :=
  ["no_agent", "forward-agent", "config", "disable-known-hosts", "keepalive",
   "password", "parallel", "no-pty", "reject-unknown-hosts", "skip-bad-hosts", "timeout",
   "command-timeout", "user", "warn-only", "pool-size"]

/-- Python `x.replace` of every dash with an underscore. -/
def underscored (s : String) : String :=
  String.mk (s.data.map (fun c => if c = '-' then '_' else c))

/-- views.py line 378: `{x.replace('-', '_'): x for x in fabric_special_options}`. -/
def command_to_config : List (String × String) :=
  fabric_special_options.map (fun x => (underscored x, x))

/-- Python `value.replace` of every double quote with backslash-quote,
character by character. -/
def replace_quotes : List Char → List Char
  | [] => []
  | c :: cs =>
      if c = '"' then '\\' :: '"' :: replace_quotes cs else c :: replace_quotes cs

/-- String form of `replace_quotes`. -/
def escape_quotes (s : String) : String := String.mk (replace_quotes s.data)

/-- views.py lines 386-392: serialize one configuration key/value for the
fabric command line. -/
def get_key_value_string (key : String) (value : PyValue) : String :=
  match value with
  | .bool b => key ++ (if b then "" else "=")
  | .num rendering => key ++ "=" ++ rendering
  | .str s => key ++ "=" ++ escape_quotes s

/-- The inputs `DeploymentOutputStream.build_command` reads: settings, the
deployment's task name, the stage's host names, the three configuration
layers, and the fabfile path `get_fabfile_path` resolves. -/
structure BuildInput where
  venv_path : String
  settings_fabfile : String
  task_name : String
  hosts : List String
  project_config : List (String × PyValue)
  stage_config : List (String × PyValue)
  session_values : List (String × PyValue)
  fabfile_path : String
deriving DecidableEq, Repr

/-- views.py lines 364-406, `DeploymentOutputStream.build_command`, control
flow modelled faithfully: `command` is created as a `str` (line 365), so the
first `command.append(...)` reached — line 371 when hosts are non-empty,
otherwise line 395, 400 or 402 — raises `AttributeError` and the function
never returns a value. -/
def build_command (inp : BuildInput) : Except PyError (List String) :=
  let _command := inp.venv_path ++ "fab " ++ "-f " ++ inp.settings_fabfile ++ " "
      ++ inp.task_name ++ " --abort-on-prompts"
  if inp.hosts.isEmpty then
    let config := merged_config inp.project_config inp.stage_config inp.session_values
    let keys := config.map Prod.fst
    let normal_options := keys.filter (fun k => (alist_lookup command_to_config k).isNone)
    let special_options := keys.filter (fun k => (alist_lookup command_to_config k).isSome)
    if ¬ normal_options.isEmpty then Except.error (PyError.attributeError str_no_append)
    else if ¬ special_options.isEmpty then Except.error (PyError.attributeError str_no_append)
    else Except.error (PyError.attributeError str_no_append)
  else Except.error (PyError.attributeError str_no_append)

/-- The sequence of argument values `build_command` attempts to accumulate,
modelled with a list accumulator: the initial command string of line 365,
then the argument of each `append` call in source order (lines 371, 395-396,
399-400, 402).  In the source the accumulator is a `str`, so the first
append raises; see `build_command`.  Python 2 set-difference and
set-intersection iteration order is implementation-defined; modelled here as
configuration insertion order. -/
def build_command_parts (inp : BuildInput) : List String :=
  let base := inp.venv_path ++ "fab " ++ "-f " ++ inp.settings_fabfile ++ " "
      ++ inp.task_name ++ " --abort-on-prompts"
  let hosts_part :=
    if inp.hosts.isEmpty then [] else ["--hosts=" ++ String.intercalate "," inp.hosts]
  let config := merged_config inp.project_config inp.stage_config inp.session_values
  let keys := config.map Prod.fst
  let normal_options := keys.filter (fun k => (alist_lookup command_to_config k).isNone)
  let special_options := keys.filter (fun k => (alist_lookup command_to_config k).isSome)
  let set_part :=
    if normal_options.isEmpty then []
    else ["--set",
          String.intercalate ","
            (normal_options.map
              (fun k => get_key_value_string k ((alist_lookup config k).getD (PyValue.str ""))))]
  let special_part :=
    special_options.map
      (fun k => "--" ++ get_key_value_string ((alist_lookup command_to_config k).getD k)
          ((alist_lookup config k).getD (PyValue.str "")))
  base :: hosts_part ++ set_part ++ special_part ++ ["--fabfile=" ++ inp.fabfile_path]

/-- Deployment status enum of the data model. -/
inductive DeploymentStatus where
  | pending
  | success
  | failed
deriving DecidableEq, Repr

/-- Modelled from the spec: the status constants live in
`fabric_bolt/projects/models.py`, absent from the sources; the spec fixes the
literal terminal status strings `SUCCESS` and `FAILED` carried by the
sentinel, and the initial state `PENDING`. -/
def status_string : DeploymentStatus → String
  | .pending => "PENDING"
  | .success => "SUCCESS"
  | .failed => "FAILED"

/-- The fields of a Deployment record the execution core reads and writes. -/
structure Deployment where
  task_name : String
  status : DeploymentStatus
  output : Option String
deriving DecidableEq, Repr

/-- A string of `n` spaces (Python `' ' * n`). -/
def spaces (n : Nat) : String := String.mk (List.replicate n ' ')

/-- views.py line 423 (also 435): one HTML-wrapped output line followed by
1024 spaces of padding. -/
def line_chunk (text : String) : String :=
  "<span style=\"color:rgb(200, 200, 200);font-size: 14px;font-family: " ++ apos
    ++ "Helvetica Neue" ++ apos ++ ", Helvetica, Arial, sans-serif;\">" ++ text
    ++ " </span><br /> " ++ spaces 1024

/-- views.py line 428: the terminal-status sentinel chunk, carrying the
status string, followed by 1024 spaces of padding. -/
def finished_sentinel (status : String) : String :=
  "<span id=\"finished\" style=\"display:none;\">" ++ status ++ "</span> " ++ spaces 1024

/-- views.py line 436: the failure sentinel of the exceptional path.  The
format argument is the literal string `*1024` (the source writes
`.format('*1024')`, not `.format(' '*1024)`), so the padding is those five
characters. -/
def failed_sentinel : String :=
  "<span id=\"finished\" style=\"display:none;\">failed</span> *1024"

/-- Behaviour of the spawned subprocess as observed through
`process.stdout.readline` and `process.poll`: either it produces its lines
and exits with a code, or reading raises after a prefix of the lines. -/
inductive ExecOutcome where
  | completes (lines : List String) (exitCode : Int)
  | raisesAfter (lines : List String) (msg : String)
deriving DecidableEq, Repr

/-- The observable result of one run of
`DeploymentOutputStream.output_stream_generator`: the chunks yielded to the
HTTP stream, the deployment record as left in the database, how many times
`self.object.save()` ran, and whether a subprocess was spawned. -/
structure GenResult where
  chunks : List String
  dep : Deployment
  saveCount : Nat
  spawned : Bool
deriving DecidableEq, Repr

/-- views.py lines 408-436, `DeploymentOutputStream.output_stream_generator`.
`catalog` is the key set of the fresh `get_fabric_tasks` lookup of line 409;
`buildResult` the outcome of the `self.build_command()` call of line 413;
`runProc` the behaviour of the subprocess `Popen` would spawn on a command.
If the task is absent the generator returns at once (line 410).  Otherwise
any exception from building or reading lands in the `except` of line 433,
which yields one diagnostic line and the failure sentinel without saving.
On normal completion the status is set from the return code (line 426), the
status sentinel is yielded, and status and accumulated output are persisted
by the single `save()` of line 431. -/
def output_stream_generator (catalog : List String) (dep : Deployment)
    (buildResult : Except PyError (List String))
    (runProc : List String → ExecOutcome) : GenResult :=
  if dep.task_name ∈ catalog then
    match buildResult with
    | .error e =>
        { chunks := [line_chunk ("An error occurred: " ++ e.message), failed_sentinel],
          dep := dep, saveCount := 0, spawned := false }
    | .ok cmd =>
        match runProc cmd with
        | .completes lines code =>
            let all_output := String.join lines
            let st := if code = 0 then DeploymentStatus.success else DeploymentStatus.failed
            { chunks := lines.map line_chunk ++ [finished_sentinel (status_string st)],
              dep := { dep with status := st, output := some all_output },
              saveCount := 1, spawned := true }
        | .raisesAfter lines msg =>
            { chunks := lines.map line_chunk
                ++ [line_chunk ("An error occurred: " ++ msg), failed_sentinel],
              dep := dep, saveCount := 0, spawned := true }
  else { chunks := [], dep := dep, saveCount := 0, spawned := false }

/-- Result of the HTTP GET on the output stream view. -/
inductive StreamGetResult where
  | notFound
  | stream (r : GenResult)
deriving DecidableEq, Repr

/-- views.py lines 438-441, `DeploymentOutputStream.get`:
`get_object_or_404(models.Deployment, pk=..., status=models.Deployment.PENDING)`
raises 404 unless a deployment with that pk exists and its status is
PENDING; only then is the streaming response started. -/
def output_stream_get (dep : Option Deployment) (catalog : List String)
    (buildResult : Except PyError (List String))
    (runProc : List String → ExecOutcome) : StreamGetResult :=
  match dep with
  | none => .notFound
  | some d =>
      if d.status = DeploymentStatus.pending then
        .stream (output_stream_generator catalog d buildResult runProc)
      else .notFound

/-- views.py line 65: `re.match` of one task line against
`^\s*([^\s]+)\s*(.*)$` — skip leading whitespace, take the maximal nonblank
run as the name (no match when there is none), skip whitespace, the rest is
the description. -/
def parse_task_line (line : String) : Option (String × String) :=
  let rest1 := line.data.dropWhile Char.isWhitespace
  if rest1.isEmpty then none
  else
    let name := rest1.takeWhile (fun c => ¬ c.isWhitespace)
    let rest2 := (rest1.dropWhile (fun c => ¬ c.isWhitespace)).dropWhile Char.isWhitespace
    some (String.mk name, String.mk rest2)

/-- views.py lines 68-73: when the listed description is truncated (ends in
`...`), run `fab --display=<name>` and take the third line, trimmed; an
index error there keeps the truncated description, but a failure of the
display invocation itself propagates. -/
def resolve_description (display : String → Except PyError (List String))
    (name desc : String) : Except PyError String :=
  if desc.endsWith "..." then
    match display name with
    | .error e => .error e
    | .ok o =>
        match o.get? 2 with
        | some l => .ok l.trim
        | none => .ok desc
  else .ok desc

/-- views.py lines 63-74: fold the task lines into the name-to-description
dict, resolving truncated descriptions as we go. -/
def parse_task_lines (display : String → Except PyError (List String))
    (lines : List String) : Except PyError (List (String × String)) :=
  lines.foldlM
    (fun acc line =>
      match parse_task_line line with
      | none => pure acc
      | some (name, desc) => do
          let d ← resolve_description display name desc
          pure (alist_insert acc name d))
    []

/-- The body of the `try` of `get_fabric_tasks` (views.py lines 58-74):
resolve the fabfile path, run the listing subcommand, drop its two header
lines, parse the rest. -/
def list_tasks_attempt (fabfile_result : Except PyError String)
    (list_output : String → Except PyError (List String))
    (display : String → Except PyError (List String)) :
    Except PyError (List (String × String)) := do
  let p ← fabfile_result
  let lines ← list_output p
  parse_task_lines display (lines.drop 2)

/-- views.py lines 54-78, `get_fabric_tasks`: on any exception the `except`
of line 75 records one warning message and the result is the empty dict, so
the caller always receives a value.  Returns the task dict together with the
list of warning messages surfaced. -/
def get_fabric_tasks (fabfile_result : Except PyError String)
    (list_output : String → Except PyError (List String))
    (display : String → Except PyError (List String)) :
    List (String × String) × List String :=
  match list_tasks_attempt fabfile_result list_output display with
  | .ok d => (d, [])
  | .error e => ([], ["Error loading fabfile: " ++ e.message])

/-- The fields of a Task record the execution core reads and writes. -/
structure TaskRec where
  name : String
  description : String
  times_used : Int
deriving DecidableEq, Repr

/-- First Task record with the given name in the store. -/
def task_lookup : List TaskRec → String → Option TaskRec
  | [], _ => none
  | t :: ts, n => if t.name = n then some t else task_lookup ts n

/-- Django `Task.objects.get_or_create(name=..., defaults={'description': ...})`
(views.py line 315): the existing record when one matches, otherwise a fresh
record whose `times_used` is the model field's default (`baseline`). -/
def task_get_or_create (baseline : Int) (store : List TaskRec) (n desc : String) :
    List TaskRec × TaskRec × Bool :=
  match task_lookup store n with
  | some t => (store, t, false)
  | none =>
      let t : TaskRec := { name := n, description := desc, times_used := baseline }
      (store ++ [t], t, true)

/-- Saving a Task record: replace the record with its name. -/
def task_save (store : List TaskRec) (t : TaskRec) : List TaskRec :=
  store.map (fun u => if u.name = t.name then t else u)

/-- views.py lines 315-319, the Task upsert of `DeploymentCreate.form_valid`:
get-or-create by name; when the record already existed, increment
`times_used` by 1, overwrite the description with the freshly looked-up one,
and save. -/
def deployment_create_form_valid (baseline : Int) (store : List TaskRec)
    (task_name desc : String) : List TaskRec :=
  match task_get_or_create baseline store task_name desc with
  | (store1, _, true) => store1
  | (store1, t, false) =>
      task_save store1 { t with times_used := t.times_used + 1, description := desc }

/-- Outcome of a deployment-creation request. -/
inductive CreateOutcome where
  | redirected (msg : String)
  | created
deriving DecidableEq, Repr

/-- views.py lines 272-331, the `DeploymentCreate` flow: `dispatch` rejects
the request with an error message and a redirect when the requested task
name is not in the fresh catalog (lines 277-279), before any record is
touched; otherwise `form_valid` upserts the Task and persists one new
Deployment record.  The new record's initial status is PENDING (modelled
from the spec: the model default lives in models.py, absent from the
sources). -/
def deployment_create_flow (all_tasks : List (String × String)) (task_name : String)
    (baseline : Int) (store : List TaskRec) (deployments : List Deployment) :
    CreateOutcome × List TaskRec × List Deployment :=
  match alist_lookup all_tasks task_name with
  | none =>
      (.redirected ("\"" ++ task_name ++ "\" is not a valid task."), store, deployments)
  | some desc =>
      (.created, deployment_create_form_valid baseline store task_name desc,
       deployments ++ [{ task_name := task_name, status := .pending, output := none }])

/-- Length of the run of trailing whitespace characters of a string. -/
def trailing_whitespace (s : String) : Nat :=
  (s.data.reverse.takeWhile Char.isWhitespace).length

/-! ### Association-list lemmas -/

theorem alist_lookup_insert {α : Type} (d : List (String × α)) (k : String) (v : α)
    (k2 : String) :
    alist_lookup (alist_insert d k v) k2 = if k = k2 then some v else alist_lookup d k2 := by
  induction d with
  | nil =>
      by_cases h : k = k2 <;> simp [alist_insert, alist_lookup, h]
  | cons kv rest ih =>
      obtain ⟨k3, v3⟩ := kv
      by_cases h3 : k3 = k
      · subst h3
        by_cases h2 : k3 = k2 <;> simp [alist_insert, alist_lookup, h2]
      · by_cases h2 : k3 = k2
        · subst h2
          have hkk : ¬ k = k3 := fun h => h3 h.symm
          simp [alist_insert, alist_lookup, h3, hkk]
        · simp [alist_insert, alist_lookup, h3, h2, ih]

theorem alist_lookup_dict_update {α : Type} (d2 d1 : List (String × α)) (k : String) :
    alist_lookup (dict_update d1 d2) k =
      match alist_lookup_last d2 k with
      | some w => some w
      | none => alist_lookup d1 k := by
  induction d2 generalizing d1 with
  | nil => simp [dict_update, alist_lookup_last]
  | cons kv rest ih =>
      obtain ⟨k2, v2⟩ := kv
      show alist_lookup (dict_update (alist_insert d1 k2 v2) rest) k = _
      cases h : alist_lookup_last rest k with
      | none =>
          rw [ih]
          simp only [alist_lookup_last, h]
          rw [alist_lookup_insert]
          by_cases h2 : k2 = k <;> simp [h2]
      | some w =>
          rw [ih]
          simp [alist_lookup_last, h]

theorem alist_lookup_eq_none_of_not_mem {α : Type} (d : List (String × α)) (k : String)
    (h : k ∉ d.map Prod.fst) : alist_lookup d k = none := by
  induction d with
  | nil => rfl
  | cons kv rest ih =>
      obtain ⟨k2, v2⟩ := kv
      simp only [List.map_cons, List.mem_cons] at h
      push_neg at h
      have hne : k2 ≠ k := fun hh => h.1 hh.symm
      simp [alist_lookup, hne, ih h.2]

theorem alist_lookup_last_eq_of_nodup {α : Type} (d : List (String × α)) (k : String)
    (h : (d.map Prod.fst).Nodup) : alist_lookup_last d k = alist_lookup d k := by
  induction d with
  | nil => rfl
  | cons kv rest ih =>
      obtain ⟨k2, v2⟩ := kv
      simp only [List.map_cons, List.nodup_cons] at h
      obtain ⟨hnotin, hnd⟩ := h
      by_cases h2 : k2 = k
      · subst h2
        have hnone : alist_lookup rest k2 = none :=
          alist_lookup_eq_none_of_not_mem rest k2 hnotin
        simp [alist_lookup_last, alist_lookup, ih hnd, hnone]
      · simp only [alist_lookup_last, alist_lookup, ih hnd]
        cases hr : alist_lookup rest k <;> simp [h2]

/-! ### Concrete inputs used in the claim-level statements -/

/-- End-to-end scenario A of the spec: merged configuration
`branch = "main"`, `dry_run = True`, `timeout = 30.5` (float), where
`timeout` is a special option. -/
def scenario_a_input : BuildInput :=
  { venv_path := "", settings_fabfile := "/srv/fabfile.py", task_name := "deploy",
    hosts := [], project_config := [],
    stage_config := [("branch", PyValue.str "main"), ("dry_run", PyValue.bool true),
                     ("timeout", PyValue.num "30.5")],
    session_values := [], fabfile_path := "/srv/fabfile.py" }

/-- A build input whose stage has hosts, so `build_command` reaches the
`command.append` of line 371 first. -/
def hosts_build_input : BuildInput :=
  { venv_path := "", settings_fabfile := "/srv/fabfile.py", task_name := "deploy",
    hosts := ["web1.example.com", "web2.example.com"],
    project_config := [("branch", PyValue.str "main")], stage_config := [],
    session_values := [], fabfile_path := "/srv/fabfile.py" }

/-- A generic build input used to exercise the executor. -/
def executor_build_input : BuildInput :=
  { venv_path := "", settings_fabfile := "/srv/fabfile.py", task_name := "deploy",
    hosts := [], project_config := [], stage_config := [],
    session_values := [], fabfile_path := "/srv/fabfile.py" }

/-- A pending deployment for the task `deploy`. -/
def pending_deploy : Deployment :=
  { task_name := "deploy", status := DeploymentStatus.pending, output := none }

/-! ### C2 -/

/-- C2: for every input, `build_command` raises before returning — the
command value is a string and the unconditional final `append` (or an
earlier one) raises `AttributeError` — so no invocation yields an argument
vector, and every call into it from `output_stream_generator` takes the
exceptional path without spawning a subprocess. -/
theorem build_command_always_raises (inp : BuildInput) (catalog : List String)
    (dep : Deployment) (runProc : List String → ExecOutcome)
    (hmem : dep.task_name ∈ catalog) :
    build_command inp = Except.error (PyError.attributeError str_no_append)
    ∧ output_stream_generator catalog dep (build_command inp) runProc =
        { chunks := [line_chunk ("An error occurred: " ++ str_no_append), failed_sentinel],
          dep := dep, saveCount := 0, spawned := false } := by
  have hb : build_command inp = Except.error (PyError.attributeError str_no_append) := by
    unfold build_command
    dsimp only
    split_ifs <;> rfl
  refine ⟨hb, ?_⟩
  rw [hb]
  simp [output_stream_generator, hmem, PyError.message]

/-- Witness for C2 at a concrete input. -/
theorem build_command_always_raises_fact :
    build_command executor_build_input = Except.error (PyError.attributeError str_no_append) :=
  (build_command_always_raises executor_build_input ["deploy"] pending_deploy
    (fun _ => ExecOutcome.completes [] 0) (by decide)).1

/-! ### C3 -/

/-- C3 counterexample: on the scenario-A input the built command does not
contain a single `--set=branch=main,dry_run` argument, because
`build_command` raises and never yields an argument vector at all. -/
theorem scenario_a_no_single_set_argument :
    ¬ ∃ v : List String, build_command scenario_a_input = Except.ok v
      ∧ "--set=branch=main,dry_run" ∈ v ∧ "--timeout=30.5" ∈ v := by
  rintro ⟨v, hv, -, -⟩
  rw [show build_command scenario_a_input
        = Except.error (PyError.attributeError str_no_append) from rfl] at hv
  exact Except.noConfusion hv

/-- C3 amended: `build_command` raises on every input and yields no argument
vector; the sequence of arguments it attempts to append (with the
implementation-defined set order fixed to configuration order) serializes
the normal options joined with commas, but emits them as the two separate
arguments `--set` and `branch=main,dry_run` rather than a single
`--set=<joined>` argument, next to the special `--timeout=30.5`. -/
theorem scenario_a_attempted_append_sequence :
    build_command scenario_a_input = Except.error (PyError.attributeError str_no_append)
    ∧ build_command_parts scenario_a_input =
        ["fab -f /srv/fabfile.py deploy --abort-on-prompts", "--set", "branch=main,dry_run",
         "--timeout=30.5", "--fabfile=/srv/fabfile.py"] :=
  ⟨rfl, rfl⟩

/-! ### C4 -/

/-- C4: the key/value serialization yields the bare key for `True`, the key
with a trailing equals sign for `False`, `key=value` with the number's
rendering unquoted for floats, and `key=value` for strings with every
embedded double quote escaped as backslash-quote. -/
theorem get_key_value_string_serialization (key rendering s : String) :
    get_key_value_string key (PyValue.bool true) = key
    ∧ get_key_value_string key (PyValue.bool false) = key ++ "="
    ∧ get_key_value_string key (PyValue.num rendering) = key ++ "=" ++ rendering
    ∧ get_key_value_string key (PyValue.str s) = key ++ "=" ++ escape_quotes s
    ∧ (escape_quotes s).data
        = s.data.flatMap (fun c => if c = '"' then ['\\', '"'] else [c]) := by
  refine ⟨by simp [get_key_value_string], rfl, rfl, rfl, ?_⟩
  show replace_quotes s.data = _
  induction s.data with
  | nil => rfl
  | cons c cs ih =>
      by_cases hc : c = '"' <;> simp [replace_quotes, hc, ih]

/-! ### C5 -/

/-- C5: evaluation of the code at a failing input — `build_command` raises
`AttributeError` at its first `append` and never produces an argument
vector, so there are no produced argument vectors to compare across
repeated calls. -/
theorem build_command_produces_no_vector :
    build_command hosts_build_input = Except.error (PyError.attributeError str_no_append)
    ∧ ¬ ∃ v : List String, build_command hosts_build_input = Except.ok v := by
  refine ⟨rfl, ?_⟩
  rintro ⟨v, hv⟩
  rw [show build_command hosts_build_input
        = Except.error (PyError.attributeError str_no_append) from rfl] at hv
  exact Except.noConfusion hv

/-! ### C6 -/

/-- C6 counterexample: with the requested task absent from the fresh catalog
lookup, the generator leaves the deployment in PENDING — it does not
transition it to FAILED — and spawns nothing. -/
theorem missing_task_stays_pending :
    pending_deploy.status = DeploymentStatus.pending
    ∧ pending_deploy.task_name ∉ ["other_task"]
    ∧ (output_stream_generator ["other_task"] pending_deploy
        (Except.ok ["fab"]) (fun _ => ExecOutcome.completes [] 0)).dep.status
        ≠ DeploymentStatus.failed
    ∧ (output_stream_generator ["other_task"] pending_deploy
        (Except.ok ["fab"]) (fun _ => ExecOutcome.completes [] 0)).spawned = false := by
  refine ⟨rfl, by decide, ?_, rfl⟩
  decide

/-- C6 amended: when the requested task is absent from the fresh catalog
lookup at execution start, the generator returns at once: no subprocess is
spawned, no chunk is emitted, no save is performed, and the Deployment
record is left unchanged (hence still PENDING, not FAILED). -/
theorem missing_task_no_spawn_no_transition (catalog : List String) (dep : Deployment)
    (buildResult : Except PyError (List String)) (runProc : List String → ExecOutcome)
    (h : dep.task_name ∉ catalog) :
    output_stream_generator catalog dep buildResult runProc =
      { chunks := [], dep := dep, saveCount := 0, spawned := false } := by
  simp [output_stream_generator, h]

/-- Witness for the amended C6 at a concrete input. -/
theorem missing_task_no_spawn_no_transition_fact :
    output_stream_generator ["other_task"] pending_deploy (Except.ok [])
        (fun _ => ExecOutcome.completes [] 0) =
      { chunks := [], dep := pending_deploy, saveCount := 0, spawned := false } :=
  missing_task_no_spawn_no_transition _ _ _ _ (by decide)

/-! ### C1 -/

/-- C1: a Deployment leaves PENDING at most once, and only into SUCCESS when
the subprocess exit code is 0 or FAILED otherwise; whenever the record is
changed the save happens exactly once, after the subprocess has exited, and
persists status and full transcript together; and only a PENDING deployment
can be started — the GET on the stream view rejects any other with a 404. -/
theorem deployment_single_transition (catalog : List String) (dep dep2 : Deployment)
    (buildResult : Except PyError (List String)) (runProc : List String → ExecOutcome)
    (r : GenResult) (hr : r = output_stream_generator catalog dep buildResult runProc)
    (hpend : dep.status = DeploymentStatus.pending)
    (hnot : dep2.status ≠ DeploymentStatus.pending) :
    r.saveCount ≤ 1
    ∧ (r.saveCount = 0 → r.dep = dep)
    ∧ (r.dep.status ≠ DeploymentStatus.pending →
        ∃ cmd lines code,
          buildResult = Except.ok cmd
          ∧ runProc cmd = ExecOutcome.completes lines code
          ∧ r.saveCount = 1 ∧ r.spawned = true
          ∧ r.dep.status
              = (if code = 0 then DeploymentStatus.success else DeploymentStatus.failed)
          ∧ r.dep.output = some (String.join lines))
    ∧ output_stream_get (some dep2) catalog buildResult runProc
        = StreamGetResult.notFound := by
  have hget : output_stream_get (some dep2) catalog buildResult runProc
      = StreamGetResult.notFound := by
    unfold output_stream_get
    dsimp only
    rw [if_neg hnot]
  subst hr
  by_cases hmem : dep.task_name ∈ catalog
  · cases buildResult with
    | error e =>
        have hgen : output_stream_generator catalog dep (Except.error e) runProc =
            { chunks := [line_chunk ("An error occurred: " ++ e.message), failed_sentinel],
              dep := dep, saveCount := 0, spawned := false } := by
          simp [output_stream_generator, hmem]
        rw [hgen]
        exact ⟨Nat.zero_le 1, fun _ => rfl, fun hne => absurd hpend hne, hget⟩
    | ok cmd =>
        cases hproc : runProc cmd with
        | completes lines code =>
            have hgen : output_stream_generator catalog dep (Except.ok cmd) runProc =
                { chunks := lines.map line_chunk
                    ++ [finished_sentinel (status_string
                          (if code = 0 then DeploymentStatus.success
                           else DeploymentStatus.failed))],
                  dep := { dep with
                    status := if code = 0 then DeploymentStatus.success
                              else DeploymentStatus.failed,
                    output := some (String.join lines) },
                  saveCount := 1, spawned := true } := by
              simp [output_stream_generator, hmem, hproc]
            rw [hgen]
            refine ⟨le_refl 1, fun h => absurd h one_ne_zero, fun _ => ?_, hget⟩
            exact ⟨cmd, lines, code, rfl, hproc, rfl, rfl, rfl, rfl⟩
        | raisesAfter lines msg =>
            have hgen : output_stream_generator catalog dep (Except.ok cmd) runProc =
                { chunks := lines.map line_chunk
                    ++ [line_chunk ("An error occurred: " ++ msg), failed_sentinel],
                  dep := dep, saveCount := 0, spawned := true } := by
              simp [output_stream_generator, hmem, hproc]
            rw [hgen]
            exact ⟨Nat.zero_le 1, fun _ => rfl, fun hne => absurd hpend hne, hget⟩
  · have hgen : output_stream_generator catalog dep buildResult runProc =
        { chunks := [], dep := dep, saveCount := 0, spawned := false } := by
      simp [output_stream_generator, hmem]
    rw [hgen]
    exact ⟨Nat.zero_le 1, fun _ => rfl, fun hne => absurd hpend hne, hget⟩

/-- Witness for C1 at a concrete input. -/
theorem deployment_single_transition_fact :
    (output_stream_generator ["deploy"] pending_deploy (Except.ok ["fab"])
        (fun _ => ExecOutcome.completes ["line one", "line two"] 0)).saveCount ≤ 1 :=
  (deployment_single_transition ["deploy"] pending_deploy
      { task_name := "deploy", status := DeploymentStatus.success, output := none }
      (Except.ok ["fab"]) (fun _ => ExecOutcome.completes ["line one", "line two"] 0)
      _ rfl rfl (by decide)).1

/-! ### C7 -/

/-- C7: every failure while listing tasks yields the empty mapping plus
exactly one non-fatal warning, the function still returning a value to its
caller; and a deployment-creation request whose task name is not in the
resulting mapping is rejected with a redirect, leaving the Task store and
the Deployment table untouched. -/
theorem catalog_failure_and_creation_guard
    (fabfile_result : Except PyError String)
    (list_output display : String → Except PyError (List String)) (e : PyError)
    (all_tasks : List (String × String)) (task_name : String) (baseline : Int)
    (store : List TaskRec) (deployments : List Deployment)
    (hfail : list_tasks_attempt fabfile_result list_output display = Except.error e)
    (habsent : alist_lookup all_tasks task_name = none) :
    get_fabric_tasks fabfile_result list_output display
      = ([], ["Error loading fabfile: " ++ e.message])
    ∧ deployment_create_flow all_tasks task_name baseline store deployments
        = (CreateOutcome.redirected ("\"" ++ task_name ++ "\" is not a valid task."),
           store, deployments) := by
  constructor
  · unfold get_fabric_tasks
    rw [hfail]
  · unfold deployment_create_flow
    rw [habsent]

/-- Witness for C7 at a concrete input. -/
theorem catalog_failure_and_creation_guard_fact :
    get_fabric_tasks (Except.error (PyError.exception "clone failed"))
        (fun _ => Except.ok []) (fun _ => Except.ok [])
      = ([], ["Error loading fabfile: clone failed"])
    ∧ deployment_create_flow [("other_task", "doc")] "deploy" 1 [] []
        = (CreateOutcome.redirected ("\"deploy\" is not a valid task."), [], []) :=
  catalog_failure_and_creation_guard (Except.error (PyError.exception "clone failed"))
    (fun _ => Except.ok []) (fun _ => Except.ok []) (PyError.exception "clone failed")
    [("other_task", "doc")] "deploy" 1 [] [] rfl rfl

/-! ### C8 -/

/-- C8: in the merged configuration for a run, a stage-level value wins over
a project-level value of the same key (when no prompted value intervenes for
that key), and a supplied prompted value wins over both. -/
theorem configuration_merge_precedence (p s sess : List (String × PyValue))
    (k : String) (v : PyValue)
    (hnds : (s.map Prod.fst).Nodup) (hndsess : (sess.map Prod.fst).Nodup) :
    (alist_lookup s k = some v → alist_lookup sess k = none →
      alist_lookup (merged_config p s sess) k = some v)
    ∧ (alist_lookup sess k = some v →
      alist_lookup (merged_config p s sess) k = some v) := by
  have hm : alist_lookup (merged_config p s sess) k =
      match alist_lookup sess k with
      | some w => some w
      | none =>
          match alist_lookup s k with
          | some w => some w
          | none => alist_lookup p k := by
    unfold merged_config stage_get_configurations
    rw [alist_lookup_dict_update, alist_lookup_last_eq_of_nodup sess k hndsess]
    cases hsess : alist_lookup sess k with
    | some w => rfl
    | none =>
        rw [alist_lookup_dict_update, alist_lookup_last_eq_of_nodup s k hnds]
        cases hs : alist_lookup s k with
        | some w => rfl
        | none => rfl
  constructor
  · intro hs hsess
    rw [hm, hsess, hs]
  · intro hsess
    rw [hm, hsess]

/-- Witness for C8 at concrete configuration layers. -/
theorem configuration_merge_precedence_fact :
    alist_lookup (merged_config [("branch", PyValue.str "proj")]
        [("branch", PyValue.str "stage")] []) "branch" = some (PyValue.str "stage")
    ∧ alist_lookup (merged_config [("branch", PyValue.str "proj")]
        [("branch", PyValue.str "stage")] [("branch", PyValue.str "prompted")]) "branch"
        = some (PyValue.str "prompted") :=
  ⟨(configuration_merge_precedence [("branch", PyValue.str "proj")]
      [("branch", PyValue.str "stage")] [] "branch" (PyValue.str "stage")
      (by decide) (by decide)).1 (by decide) (by decide),
   (configuration_merge_precedence [("branch", PyValue.str "proj")]
      [("branch", PyValue.str "stage")] [("branch", PyValue.str "prompted")] "branch"
      (PyValue.str "prompted") (by decide) (by decide)).2 (by decide)⟩

/-! ### C9 -/

theorem task_lookup_name (store : List TaskRec) (n : String) (t : TaskRec)
    (h : task_lookup store n = some t) : t.name = n := by
  induction store with
  | nil => exact Option.noConfusion h
  | cons u us ih =>
      by_cases hu : u.name = n
      · simp only [task_lookup, if_pos hu] at h
        injection h with h2
        rw [← h2]
        exact hu
      · simp only [task_lookup, if_neg hu] at h
        exact ih h

theorem task_lookup_append (store l2 : List TaskRec) (n : String)
    (h : task_lookup store n = none) : task_lookup (store ++ l2) n = task_lookup l2 n := by
  induction store with
  | nil => rfl
  | cons u us ih =>
      simp only [task_lookup] at h
      by_cases hu : u.name = n
      · rw [if_pos hu] at h
        exact Option.noConfusion h
      · rw [if_neg hu] at h
        simp only [List.cons_append, task_lookup, if_neg hu]
        exact ih h

theorem task_lookup_save_mem (store : List TaskRec) (t u0 : TaskRec) (n : String)
    (hn : t.name = n) (h : task_lookup store n = some u0) :
    task_lookup (task_save store t) n = some t := by
  induction store with
  | nil => exact Option.noConfusion h
  | cons u us ih =>
      simp only [task_lookup] at h
      simp only [task_save, List.map_cons]
      by_cases hu : u.name = n
      · have heq : u.name = t.name := by rw [hn, hu]
        rw [if_pos heq]
        simp only [task_lookup, if_pos hn]
      · have hne : u.name ≠ t.name := by rw [hn]; exact hu
        rw [if_neg hne]
        rw [if_neg hu] at h
        simp only [task_lookup, if_neg hu]
        exact ih h

/-- C9: on each deployment creation the Task record for the requested name
is upserted — the first creation for a new name stores the looked-up
description with the baseline `times_used`, and each later creation for the
same name increments `times_used` by exactly 1 and overwrites the
description with the freshly looked-up one. -/
theorem task_upsert_create_or_increment (baseline : Int) (store : List TaskRec)
    (task_name desc : String) :
    task_lookup (deployment_create_form_valid baseline store task_name desc) task_name
      = some (match task_lookup store task_name with
              | none => { name := task_name, description := desc, times_used := baseline }
              | some t =>
                  { name := task_name, description := desc,
                    times_used := t.times_used + 1 }) := by
  cases h : task_lookup store task_name with
  | none =>
      unfold deployment_create_form_valid task_get_or_create
      rw [h]
      dsimp only
      rw [task_lookup_append store _ task_name h]
      simp [task_lookup]
  | some t =>
      have hname : t.name = task_name := task_lookup_name store task_name t h
      unfold deployment_create_form_valid task_get_or_create
      rw [h]
      dsimp only
      rw [task_lookup_save_mem store
            { name := t.name, description := desc, times_used := t.times_used + 1 }
            t task_name hname h]
      rw [hname]

/-! ### C10 -/

/-- C10: evaluation of the exceptional path of the stream generator: exactly
one diagnostic chunk and one terminal-failure sentinel are emitted, but the
failure sentinel ends with the five characters `*1024` — zero trailing
whitespace — while the diagnostic chunk is followed by 1025 trailing
whitespace characters; so the failure sentinel is not followed by at least
1024 padding whitespace characters. -/
theorem exceptional_path_sentinel_padding :
    (output_stream_generator ["deploy"] pending_deploy
        (build_command executor_build_input)
        (fun _ => ExecOutcome.completes [] 0)).chunks
      = [line_chunk ("An error occurred: " ++ str_no_append), failed_sentinel]
    ∧ trailing_whitespace failed_sentinel = 0
    ∧ trailing_whitespace (line_chunk ("An error occurred: " ++ str_no_append)) = 1025 := by
  set_option maxRecDepth 100000 in
  exact ⟨rfl, rfl, rfl⟩
